import Mathlib

/-!
Shallow embedding of `app.py`, a single-page wind-power prediction form.

The program loads a pickled regression model, renders input widgets for a
fixed feature list (`REQUIRED_FEATURES`), and on each button press
validates the collected inputs, reorders them into the model's column
order, invokes `predict`, clamps the scalar result at zero and renders it
with four decimal places.  Values are modelled as rationals, Python
exceptions as an explicit error type, and the Streamlit render calls as
constructors of an outcome type.
-/

/-- Constant `MODEL_FILENAME` from `app.py`. -/
def MODEL_FILENAME : String := "XGBoost_best_model.pkl"

/-- Constant `MODEL_PATH` from `app.py`. -/
def MODEL_PATH : String := MODEL_FILENAME

/-- Constant `REQUIRED_FEATURES` from `app.py`: the ordered feature list
the model was trained with. -/
def REQUIRED_FEATURES : List String :=
  ["月", "日", "时", "分", "测风塔70米风速(m/s)",
   "测风塔50米风速(m/s)", "测风塔30米风速(m/s)", "测风塔10米风速(m/s)"]

/-- A Python exception raised during record preparation or prediction:
either a `KeyError` (carrying the offending key) or any other exception
(carrying its message). -/
inductive PyError where
  | keyError (key : String)
  | otherError (msg : String)
  deriving DecidableEq

/-- The loaded model: an opaque object exposing a `predict` capability
that maps a single ordered record to a list of outputs (or raises). -/
structure Model where
  predict : List (String × ℚ) → Except PyError (List ℚ)

/-- Result of opening and unpickling the file at a path: the file system
and deserializer behaviour that `load_model`'s `try` block observes. -/
inductive DeserializeResult where
  | ok (m : Model)
  | fileNotFound
  | failure (msg : String)

/-- What `load_model` produces: the returned model (possibly `None`) and
the error banner rendered by `st.error`, if any. -/
structure LoadResult where
  model : Option Model
  errorBanner : Option String

/-- The `st.error` text for a missing model file (line 36 of `app.py`). -/
def fileNotFoundMsg (path : String) : String :=
  "错误: 模型文件 " ++ path ++ " 未找到。请确保模型文件在同一目录下，并且文件名正确。"

/-- The `st.error` text for any other load failure (line 40 of `app.py`). -/
def loadErrMsg (e : String) : String :=
  "加载模型时出错: " ++ e

/-- Function `load_model` from `app.py`: try to unpickle the file at `path`; on
`FileNotFoundError` render the model-unavailable banner and return `None`;
on any other exception render the generic load-failure banner and return
`None`.  The ambient file system and deserializer are passed as `fs`. -/
def load_model (path : String) (fs : String → DeserializeResult) : LoadResult :=
  match fs path with
  | .ok m => ⟨some m, none⟩
  | .fileNotFound => ⟨none, some (fileNotFoundMsg path)⟩
  | .failure e => ⟨none, some (loadErrMsg e)⟩

/-- The options of the minute `selectbox` (line 62 of `app.py`). -/
def minuteOptions : List ℚ := [0, 15, 30, 45]

/-- One value per sidebar widget.  Each field is whatever the
corresponding control currently holds; the minute selectbox holds an
index into its four options. -/
structure WidgetValues where
  year : ℚ
  month : ℚ
  day : ℚ
  hour : ℚ
  minuteIdx : Fin 4
  wind70 : ℚ
  wind50 : ℚ
  wind30 : ℚ
  wind10 : ℚ
  temperature : ℚ
  pressure : ℚ
  humidity : ℚ

/-- The `input_features` dict built by lines 54-80 of `app.py`: insertion
order is year, month, day, hour, minute, then each weather feature guarded
by an `in REQUIRED_FEATURES` membership test. -/
def collectInputs (w : WidgetValues) : List (String × ℚ) :=
  [("年", w.year)] ++
  [("月", w.month)] ++
  [("日", w.day)] ++
  [("时", w.hour)] ++
  [("分", minuteOptions.get w.minuteIdx)] ++
  (if "测风塔70米风速(m/s)" ∈ REQUIRED_FEATURES then [("测风塔70米风速(m/s)", w.wind70)] else []) ++
  (if "测风塔50米风速(m/s)" ∈ REQUIRED_FEATURES then [("测风塔50米风速(m/s)", w.wind50)] else []) ++
  (if "测风塔30米风速(m/s)" ∈ REQUIRED_FEATURES then [("测风塔30米风速(m/s)", w.wind30)] else []) ++
  (if "测风塔10米风速(m/s)" ∈ REQUIRED_FEATURES then [("测风塔10米风速(m/s)", w.wind10)] else []) ++
  (if "温度(°C)" ∈ REQUIRED_FEATURES then [("温度(°C)", w.temperature)] else []) ++
  (if "气压(hPa)" ∈ REQUIRED_FEATURES then [("气压(hPa)", w.pressure)] else []) ++
  (if "湿度(%)" ∈ REQUIRED_FEATURES then [("湿度(%)", w.humidity)] else [])

/-- The widget defaults of `app.py` (`value=` arguments): year 2023,
month 6, day 15, hour 12, minute option 0, winds 5.0/4.5/4.0/3.5,
temperature 15.0, pressure 875.0, humidity 60.0. -/
def defaultWidgets : WidgetValues :=
  ⟨2023, 6, 15, 12, 0, 5, 9/2, 4, 7/2, 15, 875, 60⟩

/-- Line 89 of `app.py`: the required features with no collected value. -/
def missing_inputs (input_features : List (String × ℚ)) : List String :=
  REQUIRED_FEATURES.filter (fun f => !((input_features.map Prod.fst).contains f))

/-- Line 96 of `app.py`, `input_df[REQUIRED_FEATURES]`: select the given
columns of the one-row frame in order; a column absent from the collected
record raises `KeyError`. -/
def reindex (cols : List String) (row : List (String × ℚ)) :
    Except PyError (List (String × ℚ)) :=
  match cols with
  | [] => .ok []
  | c :: cs =>
    match row.lookup c with
    | some v =>
      match reindex cs row with
      | .ok r => .ok ((c, v) :: r)
      | .error e => .error e
    | none => .error (.keyError c)

/-- Message substituted for a Python `IndexError` on `prediction[0]` when
the model returns no outputs. -/
def indexErrMsg : String := "index 0 is out of bounds"

/-- Lines 95-100 of `app.py`: build the ordered record, call `predict`,
and take the first output; any step may raise. -/
def runPrediction (m : Model) (input_features : List (String × ℚ)) :
    Except PyError ℚ :=
  match reindex REQUIRED_FEATURES input_features with
  | .error e => .error e
  | .ok input_df =>
    match m.predict input_df with
    | .error e => .error e
    | .ok prediction =>
      match prediction.head? with
      | some v => .ok v
      | none => .error (.otherError indexErrMsg)

/-- Fraction part of `f"{v:.4f}"`: exactly four zero-padded digits. -/
def padFrac (n : ℕ) : String :=
  String.mk [Nat.digitChar (n / 1000 % 10), Nat.digitChar (n / 100 % 10),
             Nat.digitChar (n / 10 % 10), Nat.digitChar (n % 10)]

/-- Four-decimal rendering (the .4f format of line 106) over rationals:
round to four decimal places and print with exactly four fraction
digits. -/
def formatFour (q : ℚ) : String :=
  let n : ℤ := round (q * 10000)
  let sign : String := if n < 0 then "-" else ""
  let m : ℕ := n.natAbs
  sign ++ toString (m / 10000) ++ "." ++ padFrac (m % 10000)

/-- The `st.error` text when the model was not loaded (line 127). -/
def modelUnavailableMsg : String :=
  "模型未能成功加载，无法进行预测。请检查模型文件路径和完整性。"

/-- The `st.error` text of the `except KeyError` branch (line 118). -/
def keyErrMsg (e : String) : String :=
  "输入数据准备错误: 缺少特征 " ++ e ++ " 或顺序不匹配。请检查 REQUIRED_FEATURES 列表。"

/-- The `st.error` text of the generic `except Exception` branch (line 123). -/
def predErrMsg (e : String) : String :=
  "预测过程中发生错误: " ++ e

/-- What one button press renders: exactly one of the five outcomes of
lines 85-127 of `app.py`. -/
inductive SubmitOutcome where
  | modelUnavailable (msg : String)
  | missingInputs (missing : List String)
  | featureKeyError (msg : String)
  | predictionError (msg : String)
  | success (displayed : String)
  deriving DecidableEq

/-- Recogniser for the missing-required-field outcome. -/
def SubmitOutcome.isMissing : SubmitOutcome → Bool
  | .missingInputs _ => true
  | _ => false

/-- The body of the button handler (lines 85-127 of `app.py`): refuse if
the model is absent, report missing required features, otherwise reorder,
predict, clamp at zero and render with four decimals; `KeyError` and other
exceptions render their distinct banners. -/
def handleSubmit (model : Option Model) (input_features : List (String × ℚ)) :
    SubmitOutcome :=
  match model with
  | some m =>
    let missing := missing_inputs input_features
    if missing ≠ [] then
      .missingInputs missing
    else
      match runPrediction m input_features with
      | .ok v => .success (formatFour (max 0 v))
      | .error (.keyError e) => .featureKeyError (keyErrMsg e)
      | .error (.otherError e) => .predictionError (predErrMsg e)
  | none => .modelUnavailable modelUnavailableMsg

/-- A session: the outcomes of a list of submissions against one cached
model; the handler has no state of its own between clicks. -/
def runSubmissions (model : Option Model) (reqs : List (List (String × ℚ))) :
    List SubmitOutcome :=
  reqs.map (handleSubmit model)

/-! ## Helper lemmas -/

/-- Every required feature receives a widget value, so the computed list
of missing inputs is empty for any widget state. -/
lemma missing_collect (w : WidgetValues) : missing_inputs (collectInputs w) = [] := by
  simp [missing_inputs, collectInputs, REQUIRED_FEATURES, List.filter, List.contains]

/-- Reindexing the collected inputs succeeds and yields exactly the
required features, in order, with the collected values. -/
lemma reindex_collect (w : WidgetValues) : reindex REQUIRED_FEATURES (collectInputs w) =
    .ok [("月", w.month), ("日", w.day), ("时", w.hour), ("分", minuteOptions.get w.minuteIdx),
         ("测风塔70米风速(m/s)", w.wind70), ("测风塔50米风速(m/s)", w.wind50),
         ("测风塔30米风速(m/s)", w.wind30), ("测风塔10米风速(m/s)", w.wind10)] := by
  simp [reindex, collectInputs, REQUIRED_FEATURES, List.lookup]

/-- Submitting against a model whose predict returns `l` with first
output `v` renders the clamped, formatted value. -/
lemma handleSubmit_stub_ok (w : WidgetValues) (l : List ℚ) (v : ℚ) (hl : l.head? = some v) :
    handleSubmit (some ⟨fun _ => .ok l⟩) (collectInputs w) = .success (formatFour (max 0 v)) := by
  have h1 : runPrediction ⟨fun _ => Except.ok l⟩ (collectInputs w) = .ok v := by
    simp [runPrediction, reindex_collect, hl]
  simp [handleSubmit, missing_collect, h1]

/-- On a nonnegative value the rendered string carries no sign. -/
lemma formatFour_of_nonneg (q : ℚ) (h : 0 ≤ q) :
    formatFour q = toString ((round (q * 10000)).natAbs / 10000) ++ "." ++
      padFrac ((round (q * 10000)).natAbs % 10000) := by
  have h1 : (0:ℤ) ≤ round (q * 10000) := by
    rw [round_eq]
    refine Int.le_floor.mpr ?_
    push_cast
    have h2 : (0:ℚ) ≤ q * 10000 := mul_nonneg h (by norm_num)
    linarith
  simp only [formatFour]
  rw [if_neg (not_lt.mpr h1), String.empty_append]

/-- Rendering zero gives the four-decimal string of the spec example. -/
lemma formatFour_zero : formatFour (0 : ℚ) = "0.0000" := by
  have h : round ((0:ℚ) * 10000) = 0 := by norm_num
  simp only [formatFour, h]
  decide

/-- Rendering the positive spec example value. -/
lemma formatFour_pos_example : formatFour ((173456 : ℚ)/10000) = "17.3456" := by
  have h : round ((173456:ℚ)/10000 * 10000) = 173456 := by norm_num [round_eq]
  simp only [formatFour, h]
  decide

/-- Reindexing succeeds whenever every requested column has a value, and
the result lists exactly the requested columns in order with the looked-up
values. -/
lemma reindex_total (cols : List String) (inputs : List (String × ℚ))
    (h : ∀ f ∈ cols, (inputs.lookup f).isSome) :
    ∃ r, reindex cols inputs = .ok r ∧ r.map Prod.fst = cols ∧
      ∀ p ∈ r, inputs.lookup p.1 = some p.2 := by
  induction cols with
  | nil => exact ⟨[], rfl, rfl, by simp⟩
  | cons c cs ih =>
    obtain ⟨v, hv⟩ := Option.isSome_iff_exists.mp (h c (List.mem_cons_self c cs))
    obtain ⟨r, hr, hmap, hval⟩ := ih (fun f hf => h f (List.mem_cons_of_mem c hf))
    refine ⟨(c, v) :: r, ?_, ?_, ?_⟩
    · simp [reindex, hv, hr]
    · simp [hmap]
    · intro p hp
      rcases List.mem_cons.mp hp with h1 | h1
      · subst h1; exact hv
      · exact hval p h1

/-! ## Claim theorems -/

/-- C1: for every raw model output `v`, the rendered prediction is
`max 0 v`: the clamped value is never negative, its rendering carries no
minus sign, and a stub model returning `-2.5` on the default inputs
displays `0.0000`. -/
theorem clamped_render_c1 (w : WidgetValues) (v : ℚ) :
    handleSubmit (some ⟨fun _ => .ok [v]⟩) (collectInputs w) =
      .success (formatFour (max 0 v)) ∧
    (0:ℚ) ≤ max 0 v ∧
    formatFour (max 0 v) =
      toString ((round (max 0 v * 10000)).natAbs / 10000) ++ "." ++
        padFrac ((round (max 0 v * 10000)).natAbs % 10000) ∧
    handleSubmit (some ⟨fun _ => .ok [-(5/2 : ℚ)]⟩) (collectInputs defaultWidgets) =
      .success "0.0000" := by
  refine ⟨handleSubmit_stub_ok w [v] v rfl, le_max_left 0 v,
    formatFour_of_nonneg _ (le_max_left 0 v), ?_⟩
  rw [handleSubmit_stub_ok defaultWidgets [-(5/2 : ℚ)] (-(5/2 : ℚ)) rfl,
    max_eq_left (by norm_num), formatFour_zero]

/-- C2: whenever every required feature has a collected value, the record
passed to `predict` lists exactly the `REQUIRED_FEATURES` fields in that
exact order, with the collected values, and any extra collected field
(such as the year field) is dropped. -/
theorem record_order_c2 (inputs : List (String × ℚ))
    (h : ∀ f ∈ REQUIRED_FEATURES, (inputs.lookup f).isSome) :
    ∃ r, reindex REQUIRED_FEATURES inputs = .ok r ∧
      r.map Prod.fst = REQUIRED_FEATURES ∧
      (∀ p ∈ r, inputs.lookup p.1 = some p.2) ∧
      "年" ∉ r.map Prod.fst := by
  obtain ⟨r, hr, hmap, hval⟩ := reindex_total REQUIRED_FEATURES inputs h
  exact ⟨r, hr, hmap, hval, by rw [hmap]; decide⟩

/-- C2 witness: the default widget state supplies every required feature
and yields a successfully reordered record. -/
theorem record_order_c2_witness :
    (∀ f ∈ REQUIRED_FEATURES, ((collectInputs defaultWidgets).lookup f).isSome) ∧
    (∃ r, reindex REQUIRED_FEATURES (collectInputs defaultWidgets) = .ok r ∧
      r.map Prod.fst = REQUIRED_FEATURES ∧
      (∀ p ∈ r, (collectInputs defaultWidgets).lookup p.1 = some p.2) ∧
      "年" ∉ r.map Prod.fst) :=
  ⟨by decide, record_order_c2 (collectInputs defaultWidgets) (by decide)⟩

/-- C3: with an absent model, every submission renders the
model-unavailable banner; no predict capability exists to be invoked. -/
theorem model_absent_c3 (inputs : List (String × ℚ)) :
    handleSubmit none inputs = .modelUnavailable modelUnavailableMsg := rfl

/-- C4: if some required feature has no collected value, the handler
reports exactly the missing features and the outcome is the same for
every predict capability, so the model is never called. -/
theorem missing_abort_c4 (p : List (String × ℚ) → Except PyError (List ℚ))
    (inputs : List (String × ℚ)) (h : missing_inputs inputs ≠ []) :
    handleSubmit (some ⟨p⟩) inputs = .missingInputs (missing_inputs inputs) := by
  simp only [handleSubmit]
  rw [if_pos h]

/-- C4 witness: an empty collection is missing every required feature and
aborts with the missing-inputs report. -/
theorem missing_abort_c4_witness :
    missing_inputs [] ≠ [] ∧
    handleSubmit (some ⟨fun _ => Except.ok [0]⟩) [] =
      .missingInputs (missing_inputs []) :=
  ⟨by decide, missing_abort_c4 _ [] (by decide)⟩

/-- C5: `load_model` is total; a missing file yields an absent model with
the model-unavailable banner, and any other deserialization failure yields
an absent model with the generic banner containing the underlying
message. -/
theorem load_model_total_c5 (path : String) (fs : String → DeserializeResult) :
    (fs path = .fileNotFound →
      load_model path fs = ⟨none, some (fileNotFoundMsg path)⟩) ∧
    (∀ e, fs path = .failure e →
      load_model path fs = ⟨none, some (loadErrMsg e)⟩ ∧
      ∃ s, loadErrMsg e = s ++ e) := by
  constructor
  · intro h
    simp [load_model, h]
  · intro e h
    exact ⟨by simp [load_model, h], "加载模型时出错: ", rfl⟩

/-- C5 witness: both failing deserializations at the configured model
path. -/
theorem load_model_total_c5_witness :
    load_model MODEL_PATH (fun _ => DeserializeResult.fileNotFound) =
      ⟨none, some (fileNotFoundMsg MODEL_PATH)⟩ ∧
    (load_model MODEL_PATH (fun _ => DeserializeResult.failure "invalid load key") =
      ⟨none, some (loadErrMsg "invalid load key")⟩ ∧
     ∃ s, loadErrMsg "invalid load key" = s ++ "invalid load key") :=
  ⟨(load_model_total_c5 MODEL_PATH (fun _ => DeserializeResult.fileNotFound)).1 rfl,
   (load_model_total_c5 MODEL_PATH (fun _ => DeserializeResult.failure "invalid load key")).2
     "invalid load key" rfl⟩

/-- C6: a successful prediction renders the clamped value as an
integer part, a dot, and exactly four fraction digits, with the success
outcome; a stub model returning `17.3456` on the default inputs displays
`17.3456`. -/
theorem render_four_c6 (w : WidgetValues) (v : ℚ) :
    handleSubmit (some ⟨fun _ => .ok [v]⟩) (collectInputs w) =
      .success (formatFour (max 0 v)) ∧
    (∃ s t : String, formatFour (max 0 v) = s ++ "." ++ t ∧ t.length = 4) ∧
    handleSubmit (some ⟨fun _ => .ok [(173456 : ℚ)/10000]⟩) (collectInputs defaultWidgets) =
      .success "17.3456" := by
  refine ⟨handleSubmit_stub_ok w [v] v rfl, ⟨_, _, rfl, rfl⟩, ?_⟩
  rw [handleSubmit_stub_ok defaultWidgets [(173456 : ℚ)/10000] ((173456 : ℚ)/10000) rfl,
    max_eq_right (by norm_num), formatFour_pos_example]

/-- C7: the collected minute value always comes from the selectbox's four
options, so it is one of 0, 15, 30 or 45 for every widget state. -/
theorem minute_options_c7 (w : WidgetValues) :
    ∃ m, (collectInputs w).lookup "分" = some m ∧
      (m = 0 ∨ m = 15 ∨ m = 30 ∨ m = 45) := by
  refine ⟨minuteOptions.get w.minuteIdx, ?_, ?_⟩
  · simp [collectInputs, REQUIRED_FEATURES, List.lookup]
  · have h : ∀ j : Fin 4, minuteOptions.get j = 0 ∨ minuteOptions.get j = 15 ∨
        minuteOptions.get j = 30 ∨ minuteOptions.get j = 45 := by decide
    exact h w.minuteIdx

/-- C8: a `KeyError` during record preparation or prediction renders the
feature-mismatch banner, any other failure renders the generic prediction
banner, both as non-terminating outcomes, and the two banners are always
distinct strings. -/
theorem error_distinct_c8 (w : WidgetValues) (e1 e2 : String) :
    handleSubmit (some ⟨fun _ => .error (.keyError e1)⟩) (collectInputs w) =
      .featureKeyError (keyErrMsg e1) ∧
    handleSubmit (some ⟨fun _ => .error (.otherError e2)⟩) (collectInputs w) =
      .predictionError (predErrMsg e2) ∧
    keyErrMsg e1 ≠ predErrMsg e2 := by
  refine ⟨?_, ?_, ?_⟩
  · have h1 : runPrediction ⟨fun _ => Except.error (PyError.keyError e1)⟩
        (collectInputs w) = .error (.keyError e1) := by
      simp [runPrediction, reindex_collect]
    simp [handleSubmit, missing_collect, h1]
  · have h2 : runPrediction ⟨fun _ => Except.error (PyError.otherError e2)⟩
        (collectInputs w) = .error (.otherError e2) := by
      simp [runPrediction, reindex_collect]
    simp [handleSubmit, missing_collect, h2]
  · intro hcontra
    have hk : (keyErrMsg e1).data.head? = some '输' := rfl
    have hp : (predErrMsg e2).data.head? = some '预' := rfl
    rw [hcontra, hp] at hk
    exact absurd (Option.some.inj hk) (by decide)

/-- C8 witness: the two error banners at concrete exception texts. -/
theorem error_distinct_c8_witness :
    handleSubmit (some ⟨fun _ => .error (.keyError "月")⟩) (collectInputs defaultWidgets) =
      .featureKeyError (keyErrMsg "月") ∧
    handleSubmit (some ⟨fun _ => .error (.otherError "shape mismatch")⟩)
      (collectInputs defaultWidgets) =
      .predictionError (predErrMsg "shape mismatch") ∧
    keyErrMsg "月" ≠ predErrMsg "shape mismatch" :=
  error_distinct_c8 defaultWidgets "月" "shape mismatch"

/-- C9: a session is a map of the stateless handler over the submissions,
so any two submissions with identical collected inputs against the same
cached model render identical outcomes. -/
theorem stateless_c9 (model : Option Model) (reqs : List (List (String × ℚ)))
    (i j : ℕ) (h : reqs[i]? = reqs[j]?) :
    (runSubmissions model reqs)[i]? = (runSubmissions model reqs)[j]? := by
  simp [runSubmissions, List.getElem?_map, h]

/-- C9 witness: two identical submissions in one session give the same
outcome. -/
theorem stateless_c9_witness :
    (([[], []] : List (List (String × ℚ)))[0]? =
      ([[], []] : List (List (String × ℚ)))[1]?) ∧
    (runSubmissions none [[], []])[0]? = (runSubmissions none [[], []])[1]? :=
  ⟨rfl, stateless_c9 none [[], []] 0 1 rfl⟩

/-- C10: the missing-required-field branch is unreachable from the shipped
widgets: the computed missing list is empty for every widget state, and no
submission outcome is ever the missing-inputs report, whatever the model's
predict capability does. -/
theorem no_missing_branch_c10 (w : WidgetValues)
    (p : List (String × ℚ) → Except PyError (List ℚ)) :
    missing_inputs (collectInputs w) = [] ∧
    (handleSubmit (some ⟨p⟩) (collectInputs w)).isMissing = false := by
  refine ⟨missing_collect w, ?_⟩
  cases hp : runPrediction ⟨p⟩ (collectInputs w) with
  | ok v => simp [handleSubmit, missing_collect, hp, SubmitOutcome.isMissing]
  | error e =>
    cases e <;> simp [handleSubmit, missing_collect, hp, SubmitOutcome.isMissing]
